import Mathlib

/-!
# Verification of YTTranscribe's transcript pipeline

Shallow embedding of the pure logic of `src/utils.py` (class
`YouTubeTranscriptAgent`, plus the helpers `format_time` and
`create_youtube_embed_url`), together with theorems checking the
natural-language specification against it.

Conventions of the embedding:
* the pandas DataFrame `self.transcript_df` (either `None` or a table of
  rows) is `Option (List Row)`;
* Python exceptions are explicit constructors / `Except.error` values;
* Python `str.split(sep)` is `pySplit` (non-overlapping occurrences,
  left to right);
* Python `needle in hay` is `pyContains hay needle`;
* machine floats that reach the logic only through `int(...)` are
  modelled as rationals truncated toward zero, exactly as `int()` does.
-/

namespace YT

/-- Python `needle in haystack` on lists of characters. -/
def containsSub : List Char → List Char → Bool
  | [], n => n.isEmpty
  | h :: t, n => n.isPrefixOf (h :: t) || containsSub t n

/-- Python substring test `needle in hay` for strings. -/
def pyContains (hay needle : String) : Bool :=
  containsSub hay.data needle.data

/-- Worker for `pySplit`: scans left to right, cutting at each
non-overlapping occurrence of the (non-empty) separator `sep`.  `acc` holds
the characters of the current piece in reverse.  The fuel argument only
drives the recursion; `pySplit` passes enough for the whole scan. -/
def pySplitAux (sep : List Char) : Nat → List Char → List Char → List (List Char)
  | 0, _, acc => [acc.reverse]
  | _ + 1, [], acc => [acc.reverse]
  | fuel + 1, c :: rest, acc =>
    if sep.isPrefixOf (c :: rest) then
      acc.reverse :: pySplitAux sep fuel (List.drop (sep.length - 1) rest) []
    else
      pySplitAux sep fuel rest (c :: acc)

/-- Python `s.split(sep)` for a non-empty separator: the pieces between
non-overlapping left-to-right occurrences of `sep`, always at least one
piece. -/
def pySplit (s sep : String) : List String :=
  (pySplitAux sep.data (s.data.length + 1) s.data []).map fun cs => ⟨cs⟩

/-- Python `int()` on a rational: truncation toward zero. -/
def pyTrunc (q : ℚ) : ℤ :=
  if q < 0 then -((q.num.natAbs / q.den : ℕ) : ℤ) else ((q.num.natAbs / q.den : ℕ) : ℤ)

/-- Zero-padding to two digits, as Python's format spec `02d` renders a
non-negative integer. -/
def pad2 (n : ℕ) : String :=
  (if n < 10 then "0" else "") ++ toString n

/-- Python `str(timedelta(seconds=n))` for an integer number of seconds:
`H:MM:SS` with unpadded hours, preceded by a day count when the
normalized day component is non-zero. -/
def str_timedelta (n : ℤ) : String :=
  let days : ℤ := n.ediv 86400
  let rem : ℕ := (n.emod 86400).toNat
  let hms : String :=
    toString (rem / 3600) ++ ":" ++ pad2 ((rem % 3600) / 60) ++ ":" ++ pad2 (rem % 60)
  if days = 0 then hms
  else
    toString days ++ " day" ++ (if days = 1 ∨ days = -1 then "" else "s") ++ ", " ++ hms

/-- `format_time` (src/utils.py lines 204-212).  The source goes through
`timedelta(seconds=seconds).seconds`, which is the normalized seconds
component `seconds % 86400`, then renders `MM:SS` below one hour and
`HH:MM:SS` otherwise with `02d` fields. -/
def format_time (seconds : ℕ) : String :=
  let td_seconds : ℕ := seconds % 86400
  if td_seconds < 3600 then
    pad2 (td_seconds / 60) ++ ":" ++ pad2 (td_seconds % 60)
  else
    pad2 (td_seconds / 3600) ++ ":" ++ pad2 ((td_seconds % 3600) / 60)
      ++ ":" ++ pad2 ((td_seconds % 3600) % 60)

/-- Outcome of running a fragment of Python code that may raise: either a
raised `IndexError` (from indexing `[1]` into a too-short split list) or a
normal value. -/
inductive PyResult (α : Type) where
  | indexError : PyResult α
  | ok : α → PyResult α
  deriving DecidableEq, Repr

/-- The video-id extraction performed by `create_youtube_embed_url`
(src/utils.py lines 216-223), returning Python's `video_id` variable:
`none` models `video_id = None`.

* a URL containing `"youtube.com/watch"` takes
  `url.split("v=")[1].split("&")[0]` — an `IndexError` when the URL has
  no `"v="`;
* otherwise a URL containing `"youtu.be/"` takes
  `url.split("youtu.be/")[1].split("?")[0]`;
* otherwise `video_id` stays `None`. -/
def embed_video_id (url : String) : PyResult (Option String) :=
  if pyContains url "youtube.com/watch" then
    match (pySplit url "v=").get? 1 with
    | none => .indexError
    | some s => .ok (some ((pySplit s "&").headD ""))
  else if pyContains url "youtu.be/" then
    match (pySplit url "youtu.be/").get? 1 with
    | none => .indexError
    | some s => .ok (some ((pySplit s "?").headD ""))
  else .ok none

/-- The spec's `extractId`: the id `create_youtube_embed_url` acts on after
its truthiness test `if video_id:` — an empty-string or absent id is
`NotFound` (`none`). -/
def extractId (url : String) : PyResult (Option String) :=
  match embed_video_id url with
  | .indexError => .indexError
  | .ok none => .ok none
  | .ok (some v) => .ok (if v = "" then none else some v)

/-- `create_youtube_embed_url` (src/utils.py lines 214-226): formats the
truthy extracted id into the embed-URL template, `None` otherwise. -/
def create_youtube_embed_url (url : String) : PyResult (Option String) :=
  match extractId url with
  | .indexError => .indexError
  | .ok none => .ok none
  | .ok (some v) => .ok (some ("https://www.youtube.com/embed/" ++ v))

/-- The video-id resolution inside `download_audio` (src/utils.py lines
41-47): same two recognized shapes, but any other URL falls back to the
fixed name `"video"` and the download proceeds. -/
def download_audio_video_id (url : String) : PyResult String :=
  if pyContains url "youtube.com/watch" then
    match (pySplit url "v=").get? 1 with
    | none => .indexError
    | some s => .ok ((pySplit s "&").headD "")
  else if pyContains url "youtu.be/" then
    match (pySplit url "youtu.be/").get? 1 with
    | none => .indexError
    | some s => .ok ((pySplit s "?").headD "")
  else .ok "video"

/-- A raw segment triple as produced by the speech model:
`{start, end, text}`.  The float timestamps are modelled as rationals. -/
structure RawSegment where
  start : ℚ
  stop : ℚ
  text : String
  deriving DecidableEq, Repr

/-- One row of `self.transcript_df` as built by `transcribe_audio`
(src/utils.py lines 111-118): `start`, `end`, `start_str` and `text`. -/
structure Row where
  start : ℚ
  stop : ℚ
  start_str : String
  text : String
  deriving DecidableEq, Repr

/-- Python `str.strip()`: the string with leading and trailing whitespace
removed. -/
def pyStrip (s : String) : String :=
  ⟨((s.data.dropWhile Char.isWhitespace).reverse.dropWhile Char.isWhitespace).reverse⟩

/-- The row `transcribe_audio` appends for one raw segment:
`start_str = str(timedelta(seconds=int(segment.start)))` and
`text = segment.text.strip()`. -/
def mkRow (s : RawSegment) : Row :=
  { start := s.start
    stop := s.stop
    start_str := str_timedelta (pyTrunc s.start)
    text := pyStrip s.text }

/-- The effect of `transcribe_audio` on the store (src/utils.py lines
111-120): the DataFrame holding one row per raw segment, in order. -/
def transcribe_audio (segments : List RawSegment) : Option (List Row) :=
  some (segments.map mkRow)

/-- `get_full_transcript` (src/utils.py lines 188-202): the placeholder
string when no transcript exists, otherwise the rows folded into
`"[start_str] text\n"` lines. -/
def get_full_transcript (transcript_df : Option (List Row)) : String :=
  match transcript_df with
  | none => "No transcript available."
  | some rows =>
    rows.foldl (fun acc r => acc ++ "[" ++ r.start_str ++ "] " ++ r.text ++ "\n") ""

/-- ASCII lowering of a string, as `re.IGNORECASE` folds case for the
ASCII queries at play. -/
def pyLower (s : String) : String :=
  ⟨s.data.map Char.toLower⟩

/-- Modelled from the spec: the `re` module is an external dependency; the
spec calls `search` a "case-insensitive substring/regex match".  For a
query with no regex metacharacters, `re.compile(query, re.IGNORECASE)`
searching inside a text is exactly case-insensitive substring
containment. -/
def reSearchCI (query text : String) : Bool :=
  containsSub (pyLower text).data (pyLower query).data

/-- The regex metacharacters of Python's `re` syntax; a query avoiding all
of them is matched literally. -/
def isRegexMeta (c : Char) : Bool :=
  c ∈ ['.', '^', '$', '*', '+', '?', '{', '}', '[', ']', '\\', '|', '(', ')']

/-- Worker for `reGroupsBalanced`: tracks open-group depth, skipping the
character after a backslash. -/
def reGroupsBalancedAux : List Char → Nat → Bool
  | [], depth => depth = 0
  | c :: rest, depth =>
    if c = '\\' then
      match rest with
      | [] => depth = 0
      | _ :: rest' => reGroupsBalancedAux rest' depth
    else if c = '(' then reGroupsBalancedAux rest (depth + 1)
    else if c = ')' then
      match depth with
      | 0 => false
      | d + 1 => reGroupsBalancedAux rest d
    else reGroupsBalancedAux rest depth

/-- Modelled from the spec: `re.compile` raises `re.error` on invalid
patterns; an unbalanced unescaped group parenthesis ("missing ),
unterminated subpattern" / "unbalanced parenthesis") is one such
invalidity, and a pattern free of metacharacters is always valid. -/
def reGroupsBalanced (query : String) : Bool :=
  reGroupsBalancedAux query.data 0

/-- Outcome of `search_transcript`: the source either shows
`st.error(...)` and returns `None` (no transcript yet), lets an uncaught
`re.error` escape from `re.compile`, or returns the matching rows. -/
inductive SearchOutcome where
  | errorReported : SearchOutcome
  | reError : SearchOutcome
  | results : List Row → SearchOutcome
  deriving DecidableEq, Repr

/-- `search_transcript` (src/utils.py lines 123-140): `st.error` + `None`
when `transcript_df is None`; otherwise compiles the query with
`re.IGNORECASE` (unguarded, so an invalid pattern raises) and keeps the
rows whose text contains a match, in stored order. -/
def search_transcript (transcript_df : Option (List Row)) (query : String) :
    SearchOutcome :=
  match transcript_df with
  | none => .errorReported
  | some rows =>
    if reGroupsBalanced query then
      .results (rows.filter fun r => reSearchCI query r.text)
    else .reError

/-- Modelled from the spec: NLTK's `sent_tokenize` is an external
dependency performing "locale-aware sentence-boundary detection".  Modelled
as cutting after a sentence-final `.`, `!` or `?` that is followed by a
space, consuming that space; `acc` holds the current sentence reversed. -/
def sentSplitAux : List Char → List Char → List String
  | [], acc => if acc.isEmpty then [] else [⟨acc.reverse⟩]
  | [c], acc => [⟨(c :: acc).reverse⟩]
  | c :: c' :: rest, acc =>
    if (c = '.' || c = '!' || c = '?') && c' = ' ' then
      (⟨(c :: acc).reverse⟩ : String) :: sentSplitAux rest []
    else
      sentSplitAux (c' :: rest) (c :: acc)

/-- Modelled from the spec: `sent_tokenize` over a string. -/
def sent_tokenize (s : String) : List String :=
  sentSplitAux s.data []

/-- `summarize_transcript` (src/utils.py lines 142-169): `st.error` +
`None` when no transcript exists; otherwise joins the texts with a single
space, sentence-tokenizes, and joins either all sentences (when
`num_sentences` is at least their number) or the first `num_sentences` of
them. -/
def summarize_transcript (transcript_df : Option (List Row))
    (num_sentences : ℕ) : Option String :=
  match transcript_df with
  | none => none
  | some rows =>
    let full_text := String.intercalate " " (rows.map fun r => r.text)
    let sentences := sent_tokenize full_text
    if sentences.length ≤ num_sentences then
      some (String.intercalate " " sentences)
    else
      some (String.intercalate " " (sentences.take num_sentences))

/-- Spec-side rendering of a transcript, following the spec's words: one
line per raw segment, in stored order, line `i` being
`[startDisplay] text` for segment `i` with the text trimmed.  The
`startDisplay` here is `str(timedelta(...))`, which is what the code
computes (the spec instead names `TimeFormatter`; the comparison of the
two is the subject of the corresponding theorems). -/
def renderSegLines : List RawSegment → String
  | [] => ""
  | s :: rest =>
    "[" ++ str_timedelta (pyTrunc s.start) ++ "] " ++ pyStrip s.text ++ "\n"
      ++ renderSegLines rest

/-- The same rendering over already-built rows. -/
def renderRowLines : List Row → String
  | [] => ""
  | r :: rest => "[" ++ r.start_str ++ "] " ++ r.text ++ "\n" ++ renderRowLines rest

end YT

namespace YT

example : format_time 59 = "00:59" := by decide
example : format_time 3600 = "01:00:00" := by decide
example : format_time 0 = "00:00" := by decide
example : format_time 86400 = "00:00" := by decide
example : str_timedelta 59 = "0:00:59" := by decide
example : str_timedelta 3661 = "1:01:01" := by decide
example : str_timedelta 86401 = "1 day, 0:00:01" := by decide
example : pyContains "https://www.youtube.com/watch?v=A" "youtube.com/watch" = true := by decide
example : pyContains "https://x/watch?v=ABC123&t=5" "youtube.com/watch" = false := by decide
example : extractId "https://www.youtube.com/watch?v=ABC123&t=5" = .ok (some "ABC123") := by decide
example : extractId "https://youtu.be/ABC123?x=1" = .ok (some "ABC123") := by decide
example : extractId "https://x/watch?v=ABC123&t=5" = .ok none := by decide
example : extractId "https://example.com" = .ok none := by decide
example : extractId "https://www.youtube.com/watch" = .indexError := by decide
example : extractId "https://www.youtube.com/watch?v=" = .ok none := by decide
example : create_youtube_embed_url "https://youtu.be/A" = .ok (some "https://www.youtube.com/embed/A") := by decide
example : download_audio_video_id "https://example.com" = .ok "video" := by decide
example : sent_tokenize "The quick fox. It jumps high. Then runs." =
    ["The quick fox.", "It jumps high.", "Then runs."] := by decide
example : summarize_transcript (transcribe_audio
    [⟨0, 2, "The quick fox."⟩, ⟨2, 5, "It jumps high. Then runs."⟩]) 2 =
    some "The quick fox. It jumps high." := by decide
example : reGroupsBalanced "(" = false := by decide
example : reGroupsBalanced "world" = true := by decide
example : reSearchCI "world" "Hello world" = true := by decide
example : reSearchCI "world" "WORLD peace" = true := by decide
example : search_transcript (some [⟨0, 1, "0:00:00", "Hello world"⟩,
    ⟨1, 2, "0:00:01", "WORLD peace"⟩]) "world" =
    .results [⟨0, 1, "0:00:00", "Hello world"⟩, ⟨1, 2, "0:00:01", "WORLD peace"⟩] := by decide
example : get_full_transcript (transcribe_audio [⟨59, 60, " hi "⟩]) = "[0:00:59] hi\n" := by decide

/-! ## Helper lemmas -/

/-- Two-digit fields: `pad2` of anything below 100 has length 2. -/
lemma pad2_length (n : ℕ) (h : n < 100) : (pad2 n).length = 2 := by
  have all : ∀ m : Fin 100, (pad2 m.1).length = 2 := by decide
  exact all ⟨n, h⟩

/-- The `get_full_transcript` fold, started from any accumulator, appends
the line-by-line rendering of the rows. -/
lemma foldl_renderRowLines (rows : List Row) (acc : String) :
    rows.foldl (fun acc r => acc ++ "[" ++ r.start_str ++ "] " ++ r.text ++ "\n") acc =
      acc ++ renderRowLines rows := by
  induction rows generalizing acc with
  | nil => simp [renderRowLines, String.append_empty]
  | cons r rest ih =>
    rw [List.foldl_cons, ih]
    simp [renderRowLines, String.append_assoc]

/-- Rendering the rows built by `transcribe_audio` is rendering the raw
segments. -/
lemma renderRowLines_map_mkRow (segs : List RawSegment) :
    renderRowLines (segs.map mkRow) = renderSegLines segs := by
  induction segs with
  | nil => rfl
  | cons s rest ih => simp [renderRowLines, renderSegLines, mkRow, ih]

/-- A query free of regex metacharacters compiles: the balance scan
accepts it at depth 0 (it has no parenthesis and no backslash). -/
lemma reGroupsBalancedAux_no_meta (l : List Char)
    (h : ∀ c ∈ l, isRegexMeta c = false) : reGroupsBalancedAux l 0 = true := by
  induction l with
  | nil => rfl
  | cons c rest ih =>
    have hc := h c (List.mem_cons_self c rest)
    have h1 : c ≠ '\\' := by rintro rfl; simp [isRegexMeta] at hc
    have h2 : c ≠ '(' := by rintro rfl; simp [isRegexMeta] at hc
    have h3 : c ≠ ')' := by rintro rfl; simp [isRegexMeta] at hc
    unfold reGroupsBalancedAux
    rw [if_neg h1, if_neg h2, if_neg h3]
    exact ih fun c' hc' => h c' (List.mem_cons_of_mem _ hc')

/-! ## Claim theorems -/

/-- C1 (counterexample): a transcript built from the single raw segment
`{59, 60, " hi "}` renders as `"[0:00:59] hi\n"`, which is not the line
`"[startDisplay] text"` with `startDisplay = TimeFormatter.format 59`
(that would read `"[00:59] hi"`): the code uses `str(timedelta(...))`,
not `format_time`. -/
theorem fullText_line_not_format_time :
    get_full_transcript (transcribe_audio [⟨59, 60, " hi "⟩]) = "[0:00:59] hi\n" ∧
    get_full_transcript (transcribe_audio [⟨59, 60, " hi "⟩]) ≠
      "[" ++ format_time 59 ++ "] " ++ pyStrip " hi " ++ "\n" := by
  decide

/-- C1 (amended): for every list of raw segment triples, `fullText`
returns one `"[startDisplay] text\n"` line per segment in stored order,
the text trimmed, where `startDisplay` is the `str(timedelta(...))`
rendering (e.g. `"0:00:59"`, not `"00:59"`) of the truncated integer
start seconds. -/
theorem fullText_renders_lines (segs : List RawSegment) :
    get_full_transcript (transcribe_audio segs) = renderSegLines segs := by
  show List.foldl _ "" (segs.map mkRow) = _
  rw [foldl_renderRowLines, renderRowLines_map_mkRow]
  simp [String.empty_append]

/-- C2 (counterexample): `extractId "https://x/watch?v=ABC123&t=5"` is
`NotFound`, not `"ABC123"`: the first recognized shape requires the
substring `"youtube.com/watch"`, not merely a `v=` query parameter. -/
theorem extractId_not_any_v_param :
    extractId "https://x/watch?v=ABC123&t=5" = .ok none ∧
    extractId "https://x/watch?v=ABC123&t=5" ≠ .ok (some "ABC123") := by
  decide

/-- C2 (amended): `extractId` recognizes exactly two URL shapes — any URL
containing `"youtube.com/watch"` (the id is the value after the first
`v=` up to the next `&` or end) and any URL containing `"youtu.be/"`
(the id is the segment up to the next `?` or end) — and every other
shape yields `NotFound`; in particular
`extractId "https://www.youtube.com/watch?v=ABC123&t=5" = "ABC123"`,
`extractId "https://youtu.be/ABC123?x=1" = "ABC123"`, and
`extractId "https://example.com" = NotFound`. -/
theorem extractId_shapes :
    (∀ url, pyContains url "youtube.com/watch" = false →
      pyContains url "youtu.be/" = false → extractId url = .ok none) ∧
    extractId "https://www.youtube.com/watch?v=ABC123&t=5" = .ok (some "ABC123") ∧
    extractId "https://youtu.be/ABC123?x=1" = .ok (some "ABC123") ∧
    extractId "https://example.com" = .ok none := by
  refine ⟨?_, by decide, by decide, by decide⟩
  intro url h1 h2
  simp [extractId, embed_video_id, h1, h2]

/-- C2 (witness): the rejection branch of `extractId_shapes` applied to a
concrete unrecognized URL. -/
theorem extractId_shapes_witness : extractId "https://a.example/clip" = .ok none :=
  extractId_shapes.1 "https://a.example/clip" (by decide) (by decide)

/-- C3 (counterexample): `format_time 86400` is `"00:00"` — the
`timedelta.seconds` field wraps at one day — so for `s = 86400 ≥ 3600`
the result is neither of `HH:MM:SS` shape (length 8) nor `"24:00:00"`. -/
theorem format_time_wraps_at_one_day :
    format_time 86400 = "00:00" ∧
    (format_time 86400).length ≠ 8 ∧
    format_time 86400 ≠ "24:00:00" := by
  decide

/-- C3 (amended): for every `s < 86400`, `format_time s` is `MM:SS` with
two-digit zero-padded fields when `s < 3600` and `HH:MM:SS` with
two-digit zero-padded fields when `3600 ≤ s`; beyond one day the
`timedelta.seconds` component wraps.  The spec's examples
`format_time 59 = "00:59"`, `format_time 3600 = "01:00:00"` and
`format_time 0 = "00:00"` all hold. -/
theorem format_time_spec (s : ℕ) (h : s < 86400) :
    (s < 3600 →
      format_time s = pad2 (s / 60) ++ ":" ++ pad2 (s % 60) ∧
      (format_time s).length = 5) ∧
    (3600 ≤ s →
      format_time s = pad2 (s / 3600) ++ ":" ++ pad2 (s % 3600 / 60) ++ ":" ++ pad2 (s % 60) ∧
      (format_time s).length = 8) ∧
    format_time 59 = "00:59" ∧ format_time 3600 = "01:00:00" ∧ format_time 0 = "00:00" := by
  have hmod : s % 86400 = s := Nat.mod_eq_of_lt h
  refine ⟨?_, ?_, by decide, by decide, by decide⟩
  · intro h1
    have e : format_time s = pad2 (s / 60) ++ ":" ++ pad2 (s % 60) := by
      unfold format_time
      rw [hmod, if_pos h1]
    refine ⟨e, ?_⟩
    rw [e, String.length_append, String.length_append,
      pad2_length _ (by omega), pad2_length _ (by omega)]
    rfl
  · intro h2
    have hsec : s % 3600 % 60 = s % 60 := Nat.mod_mod_of_dvd s (by norm_num)
    have e : format_time s =
        pad2 (s / 3600) ++ ":" ++ pad2 (s % 3600 / 60) ++ ":" ++ pad2 (s % 60) := by
      unfold format_time
      rw [hmod, if_neg (by omega), hsec]
    refine ⟨e, ?_⟩
    rw [e, String.length_append, String.length_append, String.length_append,
      String.length_append, pad2_length _ (by omega), pad2_length _ (by omega),
      pad2_length _ (by omega)]
    rfl

/-- C3 (witness): `format_time_spec` applied at 59. -/
theorem format_time_spec_witness :
    format_time 59 = pad2 (59 / 60) ++ ":" ++ pad2 (59 % 60) ∧ (format_time 59).length = 5 :=
  (format_time_spec 59 (by norm_num)).1 (by norm_num)

/-- C4: calling `search` or `summarize` before any transcript exists hits
the distinct reported usage error (the `st.error` + `None` path,
`errorReported` here), while `search` on a populated store whose rows
all miss a well-formed query returns the empty list of matches as a
normal result, distinct from the error. -/
theorem no_transcript_is_usage_error (q : String) (k : ℕ) (rows : List Row)
    (hq : reGroupsBalanced q = true)
    (hmiss : rows.filter (fun r => reSearchCI q r.text) = []) :
    search_transcript none q = .errorReported ∧
    summarize_transcript none k = none ∧
    search_transcript (some rows) q = .results [] ∧
    SearchOutcome.results [] ≠ SearchOutcome.errorReported := by
  refine ⟨rfl, rfl, ?_, fun hc => nomatch hc⟩
  simp [search_transcript, hq, hmiss]

/-- C4 (witness): the statement at a concrete query, count and store. -/
theorem no_transcript_is_usage_error_witness :
    search_transcript none "quantum" = .errorReported ∧
    summarize_transcript none 5 = none ∧
    search_transcript (some [⟨0, 1, "0:00:00", "Hello world"⟩]) "quantum" = .results [] ∧
    SearchOutcome.results [] ≠ SearchOutcome.errorReported :=
  no_transcript_is_usage_error "quantum" 5 [⟨0, 1, "0:00:00", "Hello world"⟩]
    (by decide) (by decide)

/-- C5: on a populated transcript, `summarize` joins the segment texts
with single spaces, sentence-tokenizes, and returns the first
`min(k, totalSentences)` sentences joined by single spaces, in order; on
the spec's two-segment example, `summarize 2` is
`"The quick fox. It jumps high."`. -/
theorem summarize_takes_sentence_prefix (rows : List Row) (k : ℕ) :
    summarize_transcript (some rows) k =
      some (String.intercalate " "
        ((sent_tokenize (String.intercalate " " (rows.map fun r => r.text))).take
          (min k (sent_tokenize (String.intercalate " " (rows.map fun r => r.text))).length))) ∧
    summarize_transcript (transcribe_audio
        [⟨0, 2, "The quick fox."⟩, ⟨2, 5, "It jumps high. Then runs."⟩]) 2 =
      some "The quick fox. It jumps high." := by
  refine ⟨?_, by decide⟩
  show (if (sent_tokenize _).length ≤ k then _ else _) = _
  by_cases hle :
      (sent_tokenize (String.intercalate " " (rows.map fun r => r.text))).length ≤ k
  · rw [if_pos hle, min_eq_right hle, List.take_length]
  · rw [if_neg hle, min_eq_left (by omega)]

/-- C6: for a metacharacter-free query on a populated store, `search`
returns exactly the rows whose text contains the query up to case, as a
sublist (hence in original stored order); the spec's example store
searched with `"world"` returns both rows in order. -/
theorem search_ci_order_preserving (rows : List Row) (q : String)
    (h : ∀ c ∈ q.data, isRegexMeta c = false) :
    search_transcript (some rows) q = .results (rows.filter fun r => reSearchCI q r.text) ∧
    List.Sublist (rows.filter fun r => reSearchCI q r.text) rows ∧
    (∀ r ∈ rows, (r ∈ rows.filter fun r => reSearchCI q r.text) ↔ reSearchCI q r.text = true) ∧
    search_transcript
        (some [⟨0, 1, "0:00:00", "Hello world"⟩, ⟨1, 2, "0:00:01", "WORLD peace"⟩]) "world" =
      .results [⟨0, 1, "0:00:00", "Hello world"⟩, ⟨1, 2, "0:00:01", "WORLD peace"⟩] := by
  refine ⟨?_, List.filter_sublist rows, ?_, by decide⟩
  · have hq : reGroupsBalanced q = true := reGroupsBalancedAux_no_meta q.data h
    simp [search_transcript, hq]
  · intro r hr
    simp [List.mem_filter, hr]

/-- C6 (witness): the theorem applied to the spec's example store and the
query `"world"`. -/
theorem search_ci_order_preserving_witness :
    search_transcript
        (some [⟨0, 1, "0:00:00", "Hello world"⟩, ⟨1, 2, "0:00:01", "WORLD peace"⟩]) "world" =
      .results [⟨0, 1, "0:00:00", "Hello world"⟩, ⟨1, 2, "0:00:01", "WORLD peace"⟩] :=
  (search_ci_order_preserving
    [⟨0, 1, "0:00:00", "Hello world"⟩, ⟨1, 2, "0:00:01", "WORLD peace"⟩]
    "world" (by decide)).2.2.2

/-- C7: evaluating the resolver at the failing input — a URL containing
`"youtube.com/watch"` but no `"v="` raises `IndexError` from
`url.split("v=")[1]`, against the spec's no-throw requirement; the
spec's own emphasized edge case (`v=` with nothing after it) does
resolve to the empty-string id and is treated as `NotFound`. -/
theorem embed_url_raises_without_v :
    create_youtube_embed_url "https://www.youtube.com/watch" = .indexError ∧
    embed_video_id "https://www.youtube.com/watch?v=" = .ok (some "") ∧
    extractId "https://www.youtube.com/watch?v=" = .ok none ∧
    create_youtube_embed_url "https://www.youtube.com/watch?v=" = .ok none := by
  decide

/-- C8: the user's query goes to `re.compile` unguarded, so the invalid
pattern `"("` raises on a populated store instead of producing a match
sequence or an empty result. -/
theorem search_unguarded_regex_raises :
    search_transcript (some [⟨0, 1, "0:00:00", "Hello world"⟩]) "(" = .reError ∧
    (∀ rows : List Row, SearchOutcome.reError ≠ SearchOutcome.results rows) ∧
    SearchOutcome.reError ≠ SearchOutcome.errorReported := by
  refine ⟨by decide, ?_, ?_⟩
  · intro rows hc
    exact SearchOutcome.noConfusion hc
  · intro hc
    exact SearchOutcome.noConfusion hc

/-- C9: `get_full_transcript` before any transcript exists returns the
plain placeholder string `"No transcript available."` — a value of the
same `String` type as a rendered transcript, not an error. -/
theorem get_full_transcript_placeholder :
    get_full_transcript none = "No transcript available." := rfl

/-- C10: `download_audio` does not fail id resolution on unrecognized URL
shapes: whenever neither recognized marker occurs in the URL, the id
silently falls back to `"video"` and the download proceeds (no raise, no
not-found result). -/
theorem download_audio_fallback_id (url : String)
    (h1 : pyContains url "youtube.com/watch" = false)
    (h2 : pyContains url "youtu.be/" = false) :
    download_audio_video_id url = .ok "video" := by
  simp [download_audio_video_id, h1, h2]

/-- C10 (witness): the fallback at a concrete unrecognized URL. -/
theorem download_audio_fallback_id_witness :
    download_audio_video_id "https://example.com" = .ok "video" :=
  download_audio_fallback_id "https://example.com" (by decide) (by decide)

end YT
